import Mathlib

/- Shallow embedding of the Property_backend repository:
   the Express route handlers in src/routes/properties.js (listing service)
   and the auth route handlers in src/unnamed/part_001 (auth service).
   Documents are modelled as Lean structures, the Mongo collection as a list,
   and each handler as a pure function from the request and the store to a
   response together with the updated store. -/

namespace VasaiProps

/-- A persisted Property document: the fields of the models/Property schema
that the route handlers in src/routes/properties.js read or write. -/
structure Property where
  id : Nat
  owner : Nat
  type : String
  bhk : String
  location : String
  price : Int
  status : String
  images : List String
  isApproved : Bool
  isActive : Bool
  views : Nat
  createdAt : Nat
  deriving Repr, DecidableEq

/-- Mongoose Property.findById over the collection. -/
def findById (store : List Property) (i : Nat) : Option Property :=
  store.find? (fun p => p.id == i)

/-- Message returned by GET /api/properties/:id when the id does not resolve
(src/routes/properties.js line 107). -/
def propertyNotFoundMsg : String := "Property not found"

/-- Message returned by GET /api/properties/:id when the property exists but is
not approved or not active (src/routes/properties.js line 114). -/
def propertyNotAvailableMsg : String := "Property not available"

/-- The `property.views += 1` mutation in the GET /:id handler. -/
def incView (p : Property) : Property := { p with views := p.views + 1 }

/-- The `property.save()` writeback: the document with this id is replaced in
the collection. -/
def saveProperty (store : List Property) (p : Property) : List Property :=
  store.map (fun q => if q.id == p.id then p else q)

/-- Result of the GET /api/properties/:id handler: HTTP status, the response
envelope fields, and the collection after the handler ran. -/
structure GetOneResult where
  status : Nat
  success : Bool
  message : Option String
  property : Option Property
  store : List Property
  deriving Repr, DecidableEq

/-- GET /api/properties/:id (src/routes/properties.js lines 99-134):
resolve the id; 404 "Property not found" when it does not resolve;
404 "Property not available" when the property is not approved or not active;
otherwise increment the view counter, save, and return the property. -/
def getOne (store : List Property) (i : Nat) : GetOneResult :=
  match findById store i with
  | none => ⟨404, false, some propertyNotFoundMsg, none, store⟩
  | some p =>
    if !p.isApproved || !p.isActive then
      ⟨404, false, some propertyNotAvailableMsg, none, store⟩
    else
      let p2 := incView p
      ⟨200, true, none, some p2, saveProperty store p2⟩

/-- A persisted User document: the fields of the models/User schema that the
auth route handlers in src/unnamed/part_001 read or write. The password field
holds the stored (salted bcrypt) hash. -/
structure User where
  id : Nat
  name : String
  email : Option String
  phone : String
  password : String
  role : String
  isActive : Bool
  lastLogin : Option Nat
  createdAt : Nat
  deriving Repr, DecidableEq

/-- Mongoose User.findOne with a phone filter. -/
def findByPhone (users : List User) (phone : String) : Option User :=
  users.find? (fun u => u.phone == phone)

/-- The `user.save()` writeback for the users collection. -/
def saveUser (users : List User) (u : User) : List User :=
  users.map (fun v => if v.id == u.id then u else v)

/-- Generic login failure message (src/unnamed/part_001 lines 107 and 124),
used both when no user matches the phone and when the password is wrong. -/
def invalidCredsMsg : String := "Invalid phone number or password"

/-- Deactivated-account message (src/unnamed/part_001 line 115). -/
def deactivatedMsg : String := "Account is deactivated. Please contact support."

/-- Admin login failure message (src/unnamed/part_001 lines 179 and 188). -/
def invalidAdminMsg : String := "Invalid admin credentials"

/-- Claims of the signed JWT: login signs \x7b userId \x7d, admin login signs
\x7b userId, role \x7d (src/unnamed/part_001 lines 133-137 and 197-201). -/
structure TokenClaims where
  userId : Nat
  role : Option String
  deriving Repr, DecidableEq

/-- The user object literal serialized in the login and admin-login success
responses (src/unnamed/part_001 lines 143-151 and 207-215): id, name, email,
role, phone, createdAt, lastLogin — and no password field. -/
structure LoginUserView where
  id : Nat
  name : String
  email : Option String
  role : String
  phone : String
  createdAt : Nat
  lastLogin : Option Nat
  deriving Repr, DecidableEq

/-- Builds the login-response user view from the stored document. -/
def loginUserView (u : User) : LoginUserView :=
  ⟨u.id, u.name, u.email, u.role, u.phone, u.createdAt, u.lastLogin⟩

/-- Result of a login handler: HTTP status, envelope fields, the claims of the
issued token (none when no token is issued) and the users collection after the
handler ran. -/
structure LoginResult where
  status : Nat
  success : Bool
  message : String
  token : Option TokenClaims
  user : Option LoginUserView
  users : List User
  deriving Repr, DecidableEq

/-- POST /api/auth/login (src/unnamed/part_001 lines 98-163). `verify hash pw`
models `user.comparePassword(pw)`, the bcrypt comparison against the stored
hash (the User model itself lives outside src/routes); `now` is the clock read
for lastLogin. -/
def login (verify : String → String → Bool) (now : Nat) (users : List User)
    (phone password : String) : LoginResult :=
  match findByPhone users phone with
  | none => ⟨401, false, invalidCredsMsg, none, none, users⟩
  | some u =>
    if !u.isActive then
      ⟨401, false, deactivatedMsg, none, none, users⟩
    else if !(verify u.password password) then
      ⟨401, false, invalidCredsMsg, none, none, users⟩
    else
      let u2 := { u with lastLogin := some now }
      ⟨200, true, "Login successful! Welcome back.", some ⟨u.id, none⟩,
        some (loginUserView u2), saveUser users u2⟩

/-- POST /api/auth/admin/login (src/unnamed/part_001 lines 170-227): rejects
with "Invalid admin credentials" when no user matches the phone or the matched
user's role is not admin, then verifies the password, then updates lastLogin
and issues a token embedding the role claim. There is no isActive check. -/
def adminLogin (verify : String → String → Bool) (now : Nat) (users : List User)
    (phone password : String) : LoginResult :=
  match findByPhone users phone with
  | none => ⟨401, false, invalidAdminMsg, none, none, users⟩
  | some u =>
    if u.role != "admin" then
      ⟨401, false, invalidAdminMsg, none, none, users⟩
    else if !(verify u.password password) then
      ⟨401, false, invalidAdminMsg, none, none, users⟩
    else
      let u2 := { u with lastLogin := some now }
      ⟨200, true, "Admin login successful!", some ⟨u.id, some u.role⟩,
        some (loginUserView u2), saveUser users u2⟩

/-- Query parameters of GET /api/properties that drive the filter object
(src/routes/properties.js lines 15-27). A `none` stands for an absent or empty
(falsy) query-string value; prices carry the parseInt result. -/
structure SearchParams where
  location : Option String
  type : Option String
  bhk : Option String
  status : Option String
  minPrice : Option Int
  maxPrice : Option Int
  search : Option String
  deriving Repr, DecidableEq

/-- Case-insensitive substring test: the Mongo filter
`\x7b $regex: location, $options: i \x7d` applied to a plain (regex-free)
location string. -/
def containsCI (hay needle : String) : Bool :=
  decide (needle.toLower.toList <:+: hay.toLower.toList)

/-- A conjunct of the filter object that is only added when the request
supplies the parameter (the `if (param) filter.x = ...` pattern of
src/routes/properties.js lines 32-56): absent parameters constrain nothing. -/
def optFilter {α : Type} (o : Option α) (f : α → Bool) : Bool :=
  match o with
  | none => true
  | some a => f a

/-- The filter object built at src/routes/properties.js lines 29-56, as the
predicate a document must satisfy to match. `textMatch` models the Mongo
`$text` full-text relevance match (the index lives in the Property schema,
outside src/routes). The base filter is always
isApproved = true and isActive = true; each supplied parameter adds one
conjunct; type and bhk are skipped when equal to the sentinel "all". -/
def matchesFilter (textMatch : String → Property → Bool) (q : SearchParams)
    (p : Property) : Bool :=
  p.isApproved && p.isActive
  && optFilter q.location (fun l => containsCI p.location l)
  && optFilter q.type (fun t => t == "all" || p.type == t)
  && optFilter q.bhk (fun b => b == "all" || p.bhk == b)
  && optFilter q.status (fun s => p.status == s)
  && optFilter q.minPrice (fun m => m ≤ p.price)
  && optFilter q.maxPrice (fun m => p.price ≤ m)
  && optFilter q.search (fun s => textMatch s p)

/-- Property.find(filter): the documents matching the filter, in store order
(the handler then sorts; sorting is orthogonal to which documents match). -/
def searchMatches (textMatch : String → Property → Bool) (q : SearchParams)
    (store : List Property) : List Property :=
  store.filter (matchesFilter textMatch q)

/-- Pagination metadata of the GET /api/properties response
(src/routes/properties.js lines 77-83). -/
structure Pagination where
  currentPage : Nat
  totalPages : Nat
  totalProperties : Nat
  hasNext : Bool
  hasPrev : Bool
  deriving Repr, DecidableEq

/-- Math.ceil(total / limit) on naturals (limit > 0 in every request the
handler defaults or parses). -/
def ceilDivNat (total limit : Nat) : Nat := (total + limit - 1) / limit

/-- The pagination step of GET /api/properties (src/routes/properties.js lines
62-84): `.skip((page - 1) * limit).limit(limit)` over the sorted matches, plus
the metadata object. `page` and `limit` default to 1 and 12 upstream. -/
def paginate (matched : List Property) (page limit : Nat) :
    List Property × Pagination :=
  let total := matched.length
  let totalPages := ceilDivNat total limit
  ((matched.drop ((page - 1) * limit)).take limit,
   ⟨page, totalPages, total, decide (page < totalPages), decide (1 < page)⟩)

/-- Default page number of GET /api/properties (src/routes/properties.js
line 16). -/
def defaultPage : Nat := 1

/-- Default page size of GET /api/properties (src/routes/properties.js
line 17). -/
def defaultLimit : Nat := 12

/-- Placeholder image URL used when the caller supplies no truthy `image`
field (src/routes/properties.js line 146). -/
def placeholderImage : String :=
  "https://images.pexels.com/photos/106399/pexels-photo-106399.jpeg?auto=compress&cs=tinysrgb&w=800"

/-- Request body of POST /api/properties as the handler consumes it after
validation: the descriptive fields, plus the `image` string, any caller-sent
`images` array, and any caller-sent approval flags (all spread into
propertyData before being overridden). An Option field set to none stands for
an absent key; `image := some ""` is a supplied but falsy value. -/
structure CreateBody where
  type : String
  bhk : String
  location : String
  price : Int
  status : String
  image : Option String
  images : Option (List String)
  isApproved : Option Bool
  isActive : Option Bool
  deriving Repr, DecidableEq

/-- JavaScript `x || d` on an optional string: the default is taken when the
field is absent or falsy (the empty string). -/
def jsOrElse (s : Option String) (d : String) : String :=
  match s with
  | none => d
  | some v => if v == "" then d else v

/-- The propertyData object of POST /api/properties (src/routes/properties.js
lines 141-147): the spread body with owner, isApproved, isActive and images
written after it, so those four keys always take the handler's values — in
particular any body.isApproved, body.isActive or body.images is overridden,
and images is the one-element array [body.image || placeholder]. -/
def createProperty (ownerId newId now : Nat) (b : CreateBody) : Property :=
  { id := newId
    owner := ownerId
    type := b.type
    bhk := b.bhk
    location := b.location
    price := b.price
    status := b.status
    images := [jsOrElse b.image placeholderImage]
    isApproved := true
    isActive := true
    views := 0
    createdAt := now }

/-- Outcome of the email dispatch attempted inside the POST handler's inner
try block (src/routes/properties.js lines 156-167). -/
inductive EmailOutcome
  | ok
  | failed (err : String)
  deriving Repr, DecidableEq

/-- Result of POST /api/properties: HTTP status, envelope fields, the
collection after the handler ran, and the error string logged by the inner
catch (none when no email error occurred). -/
structure CreateResult where
  status : Nat
  success : Bool
  message : String
  property : Option Property
  store : List Property
  loggedEmailError : Option String
  deriving Repr, DecidableEq

/-- POST /api/properties (src/routes/properties.js lines 139-182): build
propertyData, save it, attempt the notification emails inside a try whose
catch only logs, then respond 201 with the created listing. The email outcome
never changes the status, the body or the saved collection. -/
def createEndpoint (emails : EmailOutcome) (store : List Property)
    (ownerId newId now : Nat) (b : CreateBody) : CreateResult :=
  let p := createProperty ownerId newId now b
  let store2 := store ++ [p]
  let logged := match emails with
    | .ok => none
    | .failed e => some e
  ⟨201, true, "Property listed successfully and is now live on the website!",
    some p, store2, logged⟩

/-- Request body of PUT /api/properties/:id: every key is optional; present
keys are copied onto the document by Object.assign. -/
structure UpdateBody where
  type : Option String
  bhk : Option String
  location : Option String
  price : Option Int
  status : Option String
  images : Option (List String)
  isApproved : Option Bool
  isActive : Option Bool
  deriving Repr, DecidableEq

/-- The mutation of PUT /api/properties/:id (src/routes/properties.js lines
199-200): Object.assign(property, req.body) copies every supplied field
verbatim, then `property.isApproved = true` is assigned afterwards. -/
def updateProperty (p : Property) (b : UpdateBody) : Property :=
  let p1 : Property :=
    { p with
      type := b.type.getD p.type
      bhk := b.bhk.getD p.bhk
      location := b.location.getD p.location
      price := b.price.getD p.price
      status := b.status.getD p.status
      images := b.images.getD p.images
      isApproved := b.isApproved.getD p.isApproved
      isActive := b.isActive.getD p.isActive }
  { p1 with isApproved := true }

/-- JSON rendering of an optional string field (null when absent). -/
def optStr (s : Option String) : String := s.getD "null"

/-- JSON rendering of an optional timestamp field (null when absent). -/
def optNat (n : Option Nat) : String :=
  match n with
  | none => "null"
  | some k => toString k

/-- Every field of the stored User document as a serialized key/value list,
password hash included — the raw document shape. -/
def userAllFields (u : User) : List (String × String) :=
  [("_id", toString u.id), ("name", u.name), ("email", optStr u.email),
   ("phone", u.phone), ("password", u.password), ("role", u.role),
   ("isActive", toString u.isActive), ("lastLogin", optNat u.lastLogin),
   ("createdAt", toString u.createdAt)]

/-- The user object literal serialized by the POST /api/auth/register success
response (src/unnamed/part_001 lines 67-73). -/
def registerUserJson (u : User) : List (String × String) :=
  [("id", toString u.id), ("name", u.name), ("email", optStr u.email),
   ("phone", u.phone), ("createdAt", toString u.createdAt)]

/-- Serialization of the login-response user view (src/unnamed/part_001 lines
143-151 and 207-215). -/
def loginViewJson (v : LoginUserView) : List (String × String) :=
  [("id", toString v.id), ("name", v.name), ("email", optStr v.email),
   ("role", v.role), ("phone", v.phone), ("createdAt", toString v.createdAt),
   ("lastLogin", optNat v.lastLogin)]

/-- The document shape produced by `.select(-password)` in GET /api/auth/me
(src/unnamed/part_001 line 235): every stored field except the password. -/
def getProfileJson (u : User) : List (String × String) :=
  (userAllFields u).filter (fun kv => kv.1 != "password")

/-- Modelled from the spec: models/User.js is not under src/, and PUT
/api/auth/profile serializes the fetched document itself (data: user without a
select), so its shape is the model's JSON view. The spec defines it as the
public projection, "a user record view with the password hash field
removed". -/
def userToJSON (u : User) : List (String × String) :=
  (userAllFields u).filter (fun kv => kv.1 != "password")

/-- The field updates of PUT /api/auth/profile (src/unnamed/part_001 lines
259-260): name and phone are copied only when supplied and truthy. -/
def updateProfileUser (u : User) (name phone : Option String) : User :=
  let u1 := match name with
    | none => u
    | some n => if n == "" then u else { u with name := n }
  match phone with
  | none => u1
  | some ph => if ph == "" then u1 else { u1 with phone := ph }

/-- PUT /api/auth/profile (src/unnamed/part_001 lines 253-276): resolve the
authenticated user, apply truthy name/phone, save, and serialize the document
in the response envelope. Returns the updated collection and the serialized
user, none when the id does not resolve. -/
def updateProfileEndpoint (users : List User) (uid : Nat)
    (name phone : Option String) :
    Option (List User × List (String × String)) :=
  match users.find? (fun u => u.id == uid) with
  | none => none
  | some u =>
    let u2 := updateProfileUser u name phone
    some (saveUser users u2, userToJSON u2)

/-- GET /api/auth/me (src/unnamed/part_001 lines 233-248): the authenticated
user's document minus the password field, serialized. -/
def getProfileEndpoint (users : List User) (uid : Nat) :
    Option (List (String × String)) :=
  (users.find? (fun u => u.id == uid)).map getProfileJson

/-- A sample approved, active listing used in concrete checks. -/
def sampleProp (n : Nat) : Property :=
  ⟨n, 1, "flat", "2", "Vasai", 100, "available", [placeholderImage], true,
    true, 0, n⟩

/-- An existing but unapproved listing. -/
def unapprovedProp : Property := { sampleProp 1 with isApproved := false }

/-- A shop-typed listing. -/
def shopProp : Property := { sampleProp 2 with type := "shop", bhk := "1" }

/-- A deactivated admin user; the stored hash is modelled as plain text and
checked with string equality in concrete runs. -/
def inactiveAdmin : User :=
  ⟨1, "Super Admin", none, "2222222222", "smitaa", "admin", false, none, 0⟩

/-- An active regular user. -/
def activeUser : User :=
  ⟨2, "Asha", some "asha@example.com", "9999999999", "pw-hash", "user", true,
    none, 0⟩

/-- String-equality model of the bcrypt comparison, for concrete runs. -/
def eqVerify (hash pw : String) : Bool := hash == pw

/-- A find on the property collection only returns a document whose id is the
one searched for. -/
theorem findById_id_eq {store : List Property} {i : Nat} {p : Property}
    (h : findById store i = some p) : p.id = i := by
  have hp := List.find?_some h
  simpa using hp

/-- After a save of a document carrying the id found before, the find returns
the saved document. -/
theorem findById_saveProperty (store : List Property) (i : Nat) (p p2 : Property)
    (h : findById store i = some p) (hid : p2.id = p.id) :
    findById (saveProperty store p2) i = some p2 := by
  have hpi : p.id = i := findById_id_eq h
  have hp2i : p2.id = i := by rw [hid, hpi]
  induction store with
  | nil => simp [findById] at h
  | cons q rest ih =>
    by_cases hq : q.id = i
    · have hqp : q = p := by
        have hfind : findById (q :: rest) i = some q := by
          simp [findById, hq]
        rw [hfind] at h
        exact Option.some.inj h
      subst hqp
      simp [findById, saveProperty, hq, hp2i]
    · have h2 : findById rest i = some p := by
        simpa [findById, List.find?_cons_of_neg, hq] using h
      have g2 := ih h2
      simpa [findById, saveProperty, hq, hp2i.symm ▸ hq] using g2

/-- A save never touches documents with a different id. -/
theorem mem_saveProperty_of_ne (store : List Property) (p2 q : Property)
    (hq : q ∈ store) (hne : q.id ≠ p2.id) : q ∈ saveProperty store p2 := by
  unfold saveProperty
  refine List.mem_map.mpr ⟨q, hq, ?_⟩
  simp [hne]

/-- An optional-parameter conjunct of the Mongo filter holds exactly when the
underlying test holds for every supplied value. -/
theorem optFilter_eq_true_iff {α : Type} (o : Option α) (f : α → Bool) :
    optFilter o f = true ↔ ∀ a, o = some a → f a = true := by
  cases o <;> simp [optFilter]

/-- C1 counterexample: the claim that the not-found message is identical in
the two failure cases is false. Fetching the existing but unapproved listing
with id 1 and fetching the nonexistent id 2 both fail, yet return two
different messages ("Property not available" vs "Property not found"), so the
existence of the unapproved listing is leaked. -/
theorem getOne_message_leak :
    (getOne [unapprovedProp] 1).message = some propertyNotAvailableMsg ∧
    (getOne [unapprovedProp] 2).message = some propertyNotFoundMsg ∧
    (getOne [unapprovedProp] 1).message ≠ (getOne [unapprovedProp] 2).message := by
  decide

/-- C1 (amended): every GetOne on an id that does not resolve fails with
status 404, success = false and message "Property not found", and every GetOne
on a resolved property that is not both approved and active fails with status
404, success = false and message "Property not available"; the two messages
are distinct, not identical. -/
theorem getOne_notFound_amended (store : List Property) (i : Nat) :
    (findById store i = none →
      (getOne store i).status = 404 ∧ (getOne store i).success = false ∧
      (getOne store i).message = some propertyNotFoundMsg) ∧
    (∀ p, findById store i = some p →
      (p.isApproved = false ∨ p.isActive = false) →
      (getOne store i).status = 404 ∧ (getOne store i).success = false ∧
      (getOne store i).message = some propertyNotAvailableMsg) ∧
    propertyNotFoundMsg ≠ propertyNotAvailableMsg := by
  refine ⟨?_, ?_, by decide⟩
  · intro h
    simp [getOne, h]
  · intro p hp hflag
    have hcond : (!p.isApproved || !p.isActive) = true := by
      rcases hflag with h | h <;> simp [h]
    simp [getOne, hp, hcond]

/-- Witness for the amended C1 theorem at a concrete store: the unapproved
listing and the unresolved id both produce 404 responses with their
respective messages. -/
theorem getOne_notFound_amended_witness :
    ((getOne [unapprovedProp] 2).status = 404 ∧
      (getOne [unapprovedProp] 2).success = false ∧
      (getOne [unapprovedProp] 2).message = some propertyNotFoundMsg) ∧
    ((getOne [unapprovedProp] 1).status = 404 ∧
      (getOne [unapprovedProp] 1).success = false ∧
      (getOne [unapprovedProp] 1).message = some propertyNotAvailableMsg) := by
  refine ⟨(getOne_notFound_amended [unapprovedProp] 2).1 (by decide), ?_⟩
  exact (getOne_notFound_amended [unapprovedProp] 1).2.1 unapprovedProp
    (by decide) (Or.inl (by decide))

/-- C7: a successful GetOne returns status 200 and the fetched property, and
its only write is the view counter: the stored document afterwards is the old
one with views incremented by exactly 1 and every other field unchanged (the
returned record is that same document), documents with other ids stay in the
store untouched, and a second successful fetch of the same id leaves the
stored views exactly 2 above the original. -/
theorem getOne_increments_views (store : List Property) (i : Nat) (p : Property)
    (hfind : findById store i = some p)
    (happ : p.isApproved = true) (hact : p.isActive = true) :
    (getOne store i).status = 200 ∧
    (getOne store i).success = true ∧
    (getOne store i).property = some { p with views := p.views + 1 } ∧
    findById (getOne store i).store i = some { p with views := p.views + 1 } ∧
    (∀ q, q ∈ store → q.id ≠ i → q ∈ (getOne store i).store) ∧
    findById (getOne (getOne store i).store i).store i =
      some { p with views := p.views + 2 } := by
  have hpi : p.id = i := findById_id_eq hfind
  have hrun : getOne store i =
      ⟨200, true, none, some (incView p), saveProperty store (incView p)⟩ := by
    simp [getOne, hfind, happ, hact]
  have hsave : findById (saveProperty store (incView p)) i = some (incView p) :=
    findById_saveProperty store i p (incView p) hfind rfl
  have happ2 : (incView p).isApproved = true := happ
  have hact2 : (incView p).isActive = true := hact
  have hrun2 : getOne (saveProperty store (incView p)) i =
      ⟨200, true, none, some (incView (incView p)),
        saveProperty (saveProperty store (incView p)) (incView (incView p))⟩ := by
    simp [getOne, hsave, happ2, hact2]
  refine ⟨by rw [hrun], by rw [hrun], by rw [hrun]; rfl, ?_, ?_, ?_⟩
  · rw [hrun]
    exact hsave
  · intro q hq hne
    rw [hrun]
    exact mem_saveProperty_of_ne store (incView p) q hq (by simpa [incView, hpi] using hne)
  · rw [hrun, hrun2]
    exact findById_saveProperty (saveProperty store (incView p)) i (incView p)
      (incView (incView p)) hsave rfl

/-- Witness for C7 at a concrete store: fetching the sample listing succeeds
and stores its views bumped from 0 to 1, and a second fetch stores 2. -/
theorem getOne_increments_views_witness :
    (getOne [sampleProp 1] 1).status = 200 ∧
    findById (getOne [sampleProp 1] 1).store 1 =
      some { sampleProp 1 with views := (sampleProp 1).views + 1 } ∧
    findById (getOne (getOne [sampleProp 1] 1).store 1).store 1 =
      some { sampleProp 1 with views := (sampleProp 1).views + 2 } := by
  have h := getOne_increments_views [sampleProp 1] 1 (sampleProp 1)
    (by decide) (by decide) (by decide)
  exact ⟨h.1, h.2.2.2.1, h.2.2.2.2.2⟩

/-- C2 counterexample: AdminLogin does not behave the same as Login on a
deactivated account. The admin user with isActive = false and the correct
password logs in successfully with status 200 and an issued token, whereas
the claim requires that case to fail with Unauthorized. -/
theorem adminLogin_inactive_succeeds :
    inactiveAdmin.isActive = false ∧
    (adminLogin eqVerify 5 [inactiveAdmin] "2222222222" "smitaa").status = 200 ∧
    (adminLogin eqVerify 5 [inactiveAdmin] "2222222222" "smitaa").success = true ∧
    (adminLogin eqVerify 5 [inactiveAdmin] "2222222222" "smitaa").token =
      some ⟨1, some "admin"⟩ ∧
    (login eqVerify 5 [inactiveAdmin] "2222222222" "smitaa").status = 401 := by
  decide

/-- C2 (amended): AdminLogin fails with status 401 and the message "Invalid
admin credentials" when no user matches the phone, when the matched user's
role is not admin, and when the password fails verification — but unlike
Login it performs no isActive check. A token is only ever issued to a matched
admin user, so the role check precedes token issuance, and the issued token
embeds the role claim. -/
theorem adminLogin_amended (verify : String → String → Bool) (now : Nat)
    (users : List User) (phone pw : String) :
    (findByPhone users phone = none →
      adminLogin verify now users phone pw =
        ⟨401, false, invalidAdminMsg, none, none, users⟩) ∧
    (∀ u, findByPhone users phone = some u → u.role ≠ "admin" →
      adminLogin verify now users phone pw =
        ⟨401, false, invalidAdminMsg, none, none, users⟩) ∧
    (∀ u, findByPhone users phone = some u → u.role = "admin" →
      verify u.password pw = false →
      adminLogin verify now users phone pw =
        ⟨401, false, invalidAdminMsg, none, none, users⟩) ∧
    (∀ t, (adminLogin verify now users phone pw).token = some t →
      ∃ u, findByPhone users phone = some u ∧ u.role = "admin" ∧
        t = ⟨u.id, some "admin"⟩) := by
  refine ⟨?_, ?_, ?_, ?_⟩
  · intro h
    simp [adminLogin, h]
  · intro u hu hrole
    simp [adminLogin, hu, hrole]
  · intro u hu hrole hpw
    simp [adminLogin, hu, hrole, hpw]
  · intro t ht
    unfold adminLogin at ht
    rcases hfind : findByPhone users phone with _ | u
    · rw [hfind] at ht
      simp at ht
    · rw [hfind] at ht
      by_cases hrole : u.role = "admin"
      · by_cases hpw : verify u.password pw = true
        · refine ⟨u, rfl, hrole, ?_⟩
          simp [hrole, hpw] at ht
          exact ht.symm
        · simp [hrole, Bool.eq_false_iff.mpr hpw] at ht
      · simp [hrole] at ht

/-- Witness for the amended C2 theorem at concrete inputs: a wrong password
for the admin account is rejected with the admin message, and a non-admin
user is rejected before any token issuance. -/
theorem adminLogin_amended_witness :
    adminLogin eqVerify 5 [inactiveAdmin] "2222222222" "wrong" =
      ⟨401, false, invalidAdminMsg, none, none, [inactiveAdmin]⟩ ∧
    adminLogin eqVerify 5 [activeUser] "9999999999" "pw-hash" =
      ⟨401, false, invalidAdminMsg, none, none, [activeUser]⟩ := by
  refine ⟨(adminLogin_amended eqVerify 5 [inactiveAdmin] "2222222222" "wrong").2.2.1
    inactiveAdmin (by decide) (by decide) (by decide), ?_⟩
  exact (adminLogin_amended eqVerify 5 [activeUser] "9999999999" "pw-hash").2.1
    activeUser (by decide) (by decide)

/-- C8: Login with a phone that matches no user and Login with a matching,
active user but a failing password both fail with status 401 and the very same
generic message "Invalid phone number or password", so the two failure causes
are indistinguishable to the caller; a login against a deactivated user with
the correct password instead fails with the distinct deactivation message. -/
theorem login_messages_no_enumeration (verify : String → String → Bool)
    (now : Nat) (users : List User) (phoneA pwA phoneB pwB : String) :
    (findByPhone users phoneA = none →
      (login verify now users phoneA pwA).status = 401 ∧
      (login verify now users phoneA pwA).message = invalidCredsMsg) ∧
    (∀ u, findByPhone users phoneB = some u → u.isActive = true →
      verify u.password pwB = false →
      (login verify now users phoneB pwB).status = 401 ∧
      (login verify now users phoneB pwB).message = invalidCredsMsg) ∧
    (findByPhone users phoneA = none →
      ∀ u, findByPhone users phoneB = some u → u.isActive = true →
        verify u.password pwB = false →
        (login verify now users phoneA pwA).message =
          (login verify now users phoneB pwB).message) ∧
    (∀ u, findByPhone users phoneA = some u → u.isActive = false →
      verify u.password pwA = true →
      (login verify now users phoneA pwA).status = 401 ∧
      (login verify now users phoneA pwA).message = deactivatedMsg) ∧
    deactivatedMsg ≠ invalidCredsMsg := by
  have hnone : findByPhone users phoneA = none →
      (login verify now users phoneA pwA).status = 401 ∧
      (login verify now users phoneA pwA).message = invalidCredsMsg := by
    intro h
    simp [login, h]
  have hbadpw : ∀ u, findByPhone users phoneB = some u → u.isActive = true →
      verify u.password pwB = false →
      (login verify now users phoneB pwB).status = 401 ∧
      (login verify now users phoneB pwB).message = invalidCredsMsg := by
    intro u hu hact hpw
    simp [login, hu, hact, hpw]
  refine ⟨hnone, hbadpw, ?_, ?_, by decide⟩
  · intro ha u hu hact hpw
    rw [(hnone ha).2, (hbadpw u hu hact hpw).2]
  · intro u hu hinact hpw
    simp [login, hu, hinact]

/-- Witness for C8 at a concrete store: an unknown phone and a wrong password
for the active user produce equal generic messages, and the deactivated admin
with the correct password gets the deactivation message. -/
theorem login_messages_no_enumeration_witness :
    (login eqVerify 5 [inactiveAdmin, activeUser] "0000000000" "x").message =
      (login eqVerify 5 [inactiveAdmin, activeUser] "9999999999" "wrong").message ∧
    (login eqVerify 5 [inactiveAdmin, activeUser] "2222222222" "smitaa").message =
      deactivatedMsg := by
  have h := login_messages_no_enumeration eqVerify 5 [inactiveAdmin, activeUser]
    "0000000000" "x" "9999999999" "wrong"
  have h2 := login_messages_no_enumeration eqVerify 5 [inactiveAdmin, activeUser]
    "2222222222" "smitaa" "9999999999" "wrong"
  refine ⟨h.2.2.1 (by decide) activeUser (by decide) (by decide) (by decide), ?_⟩
  exact (h2.2.2.2.1 inactiveAdmin (by decide) (by decide) (by decide)).2

/-- C3: none of the user-returning operations serializes the stored password
hash field — the register response literal, the user view of every successful
Login and AdminLogin response, the GetProfile document (selected without the
password) and the UpdateProfile document all lack a "password" key. -/
theorem password_never_serialized (u : User) (users : List User) :
    "password" ∉ (registerUserJson u).map Prod.fst ∧
    (∀ verify now phone pw v,
      (login verify now users phone pw).user = some v →
        "password" ∉ (loginViewJson v).map Prod.fst) ∧
    (∀ verify now phone pw v,
      (adminLogin verify now users phone pw).user = some v →
        "password" ∉ (loginViewJson v).map Prod.fst) ∧
    (∀ uid j, getProfileEndpoint users uid = some j →
      "password" ∉ j.map Prod.fst) ∧
    (∀ uid name phone st j,
      updateProfileEndpoint users uid name phone = some (st, j) →
        "password" ∉ j.map Prod.fst) := by
  have hview : ∀ v : LoginUserView,
      "password" ∉ (loginViewJson v).map Prod.fst := by
    intro v
    simp [loginViewJson]
  have hfiltered : ∀ w : User,
      "password" ∉ ((userAllFields w).filter (fun kv => kv.1 != "password")).map Prod.fst := by
    intro w
    simp [userAllFields]
  refine ⟨by simp [registerUserJson], ?_, ?_, ?_, ?_⟩
  · intro verify now phone pw v _
    exact hview v
  · intro verify now phone pw v _
    exact hview v
  · intro uid j hj
    rcases hfind : users.find? (fun w => w.id == uid) with _ | w
    · simp [getProfileEndpoint, hfind] at hj
    · simp [getProfileEndpoint, hfind] at hj
      rw [← hj]
      exact hfiltered w
  · intro uid name phone st j hj
    rcases hfind : users.find? (fun w => w.id == uid) with _ | w
    · simp [updateProfileEndpoint, hfind] at hj
    · simp [updateProfileEndpoint, hfind] at hj
      rw [← hj.2]
      exact hfiltered (updateProfileUser w name phone)

/-- Witness for C3 at a concrete store: the GetProfile and UpdateProfile
responses for the active user contain no password key. -/
theorem password_never_serialized_witness :
    "password" ∉ (getProfileJson activeUser).map Prod.fst ∧
    "password" ∉
      (userToJSON (updateProfileUser activeUser (some "Asha R") none)).map Prod.fst := by
  have h := password_never_serialized activeUser [activeUser]
  refine ⟨h.2.2.2.1 2 (getProfileJson activeUser) (by decide), ?_⟩
  exact h.2.2.2.2 2 (some "Asha R") none
    (saveUser [activeUser] (updateProfileUser activeUser (some "Asha R") none))
    (userToJSON (updateProfileUser activeUser (some "Asha R") none)) (by decide)

/-- A sentinel-guarded exact-match conjunct holds exactly when the field is
equal to every supplied non-sentinel value. -/
theorem sentinel_guard_iff (t field : String) :
    (t == "all" || field == t) = true ↔ (t ≠ "all" → field = t) := by
  by_cases h : t = "all" <;> simp [h]

/-- The Mongo filter predicate of GET /api/properties holds exactly when the
document is approved and active and satisfies every supplied conjunct. -/
theorem matchesFilter_eq_true_iff (tm : String → Property → Bool)
    (q : SearchParams) (p : Property) :
    matchesFilter tm q p = true ↔
      p.isApproved = true ∧ p.isActive = true ∧
      (∀ l, q.location = some l → containsCI p.location l = true) ∧
      (∀ t, q.type = some t → t ≠ "all" → p.type = t) ∧
      (∀ b, q.bhk = some b → b ≠ "all" → p.bhk = b) ∧
      (∀ s, q.status = some s → p.status = s) ∧
      (∀ m, q.minPrice = some m → m ≤ p.price) ∧
      (∀ m, q.maxPrice = some m → p.price ≤ m) ∧
      (∀ s, q.search = some s → tm s p = true) := by
  unfold matchesFilter
  simp only [Bool.and_eq_true, optFilter_eq_true_iff, sentinel_guard_iff,
    beq_iff_eq, decide_eq_true_eq, and_assoc]

/-- C4: a property is in the Search result set exactly when it is stored,
approved and active, and satisfies every supplied filter: location as a
case-insensitive substring, type and bhk exactly unless the sentinel "all" is
supplied, status exactly, minPrice and maxPrice as inclusive bounds, and the
full-text match for a search term — so the filters compose conjunctively and
only approved, active properties ever appear. -/
theorem searchMatches_spec (tm : String → Property → Bool) (q : SearchParams)
    (store : List Property) (p : Property) :
    p ∈ searchMatches tm q store ↔
      p ∈ store ∧ p.isApproved = true ∧ p.isActive = true ∧
      (∀ l, q.location = some l → containsCI p.location l = true) ∧
      (∀ t, q.type = some t → t ≠ "all" → p.type = t) ∧
      (∀ b, q.bhk = some b → b ≠ "all" → p.bhk = b) ∧
      (∀ s, q.status = some s → p.status = s) ∧
      (∀ m, q.minPrice = some m → m ≤ p.price) ∧
      (∀ m, q.maxPrice = some m → p.price ≤ m) ∧
      (∀ s, q.search = some s → tm s p = true) := by
  rw [searchMatches, List.mem_filter, matchesFilter_eq_true_iff]

/-- Witness for C4, the spec scenario: with a flat and a shop stored, the
request type=flat with the bhk=all sentinel returns exactly the approved,
active flat, irrespective of bhk. -/
theorem searchMatches_spec_witness :
    sampleProp 1 ∈ searchMatches (fun _ _ => false)
      ⟨none, some "flat", some "all", none, none, none, none⟩
      [sampleProp 1, shopProp] ∧
    searchMatches (fun _ _ => false)
      ⟨none, some "flat", some "all", none, none, none, none⟩
      [sampleProp 1, shopProp] = [sampleProp 1] := by
  exact ⟨(searchMatches_spec _ _ _ _).mpr (by simp +decide [sampleProp]),
    by decide⟩

/-- C5: Search pagination with defaults page 1 and limit 12: currentPage
echoes the requested page, totalProperties is the total matching count,
totalPages is the ceiling of total/limit (characterized by
total ≤ totalPages * limit < total + limit), hasNext holds exactly when
page < totalPages, hasPrev exactly when page > 1; and in the scenario of 25
matches with limit 12, page 2, the returned page holds exactly matches 13-24
(12 of them) with totalPages 3, hasNext true and hasPrev true. -/
theorem paginate_spec (matched : List Property) (page limit : Nat)
    (hl : 0 < limit) :
    (paginate matched page limit).2.currentPage = page ∧
    (paginate matched page limit).2.totalProperties = matched.length ∧
    matched.length ≤ (paginate matched page limit).2.totalPages * limit ∧
    (paginate matched page limit).2.totalPages * limit < matched.length + limit ∧
    ((paginate matched page limit).2.hasNext = true ↔
      page < (paginate matched page limit).2.totalPages) ∧
    ((paginate matched page limit).2.hasPrev = true ↔ 1 < page) ∧
    defaultPage = 1 ∧ defaultLimit = 12 ∧
    (matched.length = 25 → page = 2 → limit = 12 →
      (paginate matched page limit).1.length = 12 ∧
      (∀ j, j < 12 → (paginate matched page limit).1[j]? = matched[12 + j]?) ∧
      (paginate matched page limit).2.totalPages = 3 ∧
      (paginate matched page limit).2.hasNext = true ∧
      (paginate matched page limit).2.hasPrev = true) := by
  have hceil1 : matched.length ≤ ceilDivNat matched.length limit * limit := by
    have h1 : matched.length + limit - 1 <
        (matched.length + limit - 1) / limit * limit + limit :=
      Nat.lt_div_mul_add hl
    unfold ceilDivNat
    omega
  have hceil2 : ceilDivNat matched.length limit * limit <
      matched.length + limit := by
    have h2 := Nat.div_mul_le_self (matched.length + limit - 1) limit
    unfold ceilDivNat
    omega
  refine ⟨rfl, rfl, hceil1, hceil2, by simp [paginate], by simp [paginate],
    rfl, rfl, ?_⟩
  intro h25 hp2 hl12
  subst hp2 hl12
  have hdrop : (matched.drop 12).length = 13 := by
    simp [h25]
  refine ⟨?_, ?_, ?_, ?_, ?_⟩
  · show ((matched.drop 12).take 12).length = 12
    simp [hdrop]
  · intro j hj
    show ((matched.drop 12).take 12)[j]? = matched[12 + j]?
    rw [List.getElem?_take_of_lt hj, List.getElem?_drop]
  · show ceilDivNat matched.length 12 = 3
    rw [h25]
    rfl
  · show decide (2 < ceilDivNat matched.length 12) = true
    rw [h25]
    rfl
  · rfl

/-- Witness for C5 at a concrete store of 25 listings, requesting page 2 with
limit 12: the page holds 12 items, the first one is the 13th stored match,
totalPages is 3, and both hasNext and hasPrev hold. -/
theorem paginate_spec_witness :
    (paginate ((List.range 25).map sampleProp) 2 12).1.length = 12 ∧
    (paginate ((List.range 25).map sampleProp) 2 12).1[0]? =
      ((List.range 25).map sampleProp)[12 + 0]? ∧
    (paginate ((List.range 25).map sampleProp) 2 12).2.totalPages = 3 ∧
    (paginate ((List.range 25).map sampleProp) 2 12).2.hasNext = true ∧
    (paginate ((List.range 25).map sampleProp) 2 12).2.hasPrev = true := by
  have h := paginate_spec ((List.range 25).map sampleProp) 2 12 (by decide)
  have hs := h.2.2.2.2.2.2.2.2 (by simp) rfl rfl
  exact ⟨hs.1, hs.2.1 0 (by decide), hs.2.2.1, hs.2.2.2.1, hs.2.2.2.2⟩

/-- C6: every admin write leaves the property approved. Create persists the
document with isApproved = true and isActive = true whatever approval flags
the payload carries, and Update applies every supplied field verbatim and
then re-forces isApproved = true — even when the payload sets it false — while
an isActive = false in the payload is kept verbatim. -/
theorem admin_writes_stay_approved (ownerId newId now : Nat) (b : CreateBody)
    (em : EmailOutcome) (store : List Property) (p : Property) (ub : UpdateBody) :
    (createProperty ownerId newId now b).isApproved = true ∧
    (createProperty ownerId newId now b).isActive = true ∧
    createProperty ownerId newId now b ∈
      (createEndpoint em store ownerId newId now b).store ∧
    (updateProperty p ub).isApproved = true ∧
    (ub.isApproved = some false → (updateProperty p ub).isApproved = true) ∧
    (∀ t, ub.type = some t → (updateProperty p ub).type = t) ∧
    (∀ v, ub.bhk = some v → (updateProperty p ub).bhk = v) ∧
    (∀ v, ub.location = some v → (updateProperty p ub).location = v) ∧
    (∀ v, ub.price = some v → (updateProperty p ub).price = v) ∧
    (∀ v, ub.status = some v → (updateProperty p ub).status = v) ∧
    (∀ v, ub.images = some v → (updateProperty p ub).images = v) ∧
    (∀ v, ub.isActive = some v → (updateProperty p ub).isActive = v) := by
  refine ⟨rfl, rfl, ?_, rfl, fun _ => rfl, ?_, ?_, ?_, ?_, ?_, ?_, ?_⟩
  · simp [createEndpoint]
  all_goals intro v hv
  all_goals simp [updateProperty, hv]

/-- Witness for C6 at concrete inputs: a create payload asking for
isApproved = false and isActive = false is persisted approved and active, and
an update payload asking for isApproved = false still leaves the document
approved while its supplied location lands verbatim. -/
theorem admin_writes_stay_approved_witness :
    (createProperty 1 7 0
      ⟨"flat", "2", "Vasai", 100, "available", none, none, some false,
        some false⟩).isApproved = true ∧
    (createProperty 1 7 0
      ⟨"flat", "2", "Vasai", 100, "available", none, none, some false,
        some false⟩).isActive = true ∧
    (updateProperty (sampleProp 1)
      ⟨none, none, some "Virar", none, none, none, some false,
        none⟩).isApproved = true ∧
    (updateProperty (sampleProp 1)
      ⟨none, none, some "Virar", none, none, none, some false,
        none⟩).location = "Virar" := by
  have h := admin_writes_stay_approved 1 7 0
    ⟨"flat", "2", "Vasai", 100, "available", none, none, some false, some false⟩
    EmailOutcome.ok [] (sampleProp 1)
    ⟨none, none, some "Virar", none, none, none, some false, none⟩
  exact ⟨h.1, h.2.1, h.2.2.2.2.1 rfl,
    h.2.2.2.2.2.2.2.1 "Virar" rfl⟩

/-- C9: a notification-dispatch failure during property creation is absorbed:
the request still returns 201 with success and the created listing, the
persisted store is identical to the one of a run whose emails succeed (no
rollback — the created document is in it), and the failure is only logged. -/
theorem create_email_failure_absorbed (store : List Property)
    (ownerId newId now : Nat) (b : CreateBody) (e : String) :
    (createEndpoint (.failed e) store ownerId newId now b).status = 201 ∧
    (createEndpoint (.failed e) store ownerId newId now b).success = true ∧
    (createEndpoint (.failed e) store ownerId newId now b).property =
      some (createProperty ownerId newId now b) ∧
    createProperty ownerId newId now b ∈
      (createEndpoint (.failed e) store ownerId newId now b).store ∧
    (createEndpoint (.failed e) store ownerId newId now b).store =
      (createEndpoint .ok store ownerId newId now b).store ∧
    (createEndpoint (.failed e) store ownerId newId now b).loggedEmailError =
      some e := by
  refine ⟨rfl, rfl, rfl, ?_, rfl, rfl⟩
  simp [createEndpoint]

/-- C10: the stored images field of every created property is exactly a
one-element array: the caller's image when it is supplied and truthy, the
placeholder URL when it is absent or empty; and the caller's images array is
discarded — the created document does not depend on it at all. -/
theorem create_images_singleton (ownerId newId now : Nat) (b : CreateBody) :
    (createProperty ownerId newId now b).images.length = 1 ∧
    (∀ img, b.image = some img → img ≠ "" →
      (createProperty ownerId newId now b).images = [img]) ∧
    (b.image = none →
      (createProperty ownerId newId now b).images = [placeholderImage]) ∧
    (b.image = some "" →
      (createProperty ownerId newId now b).images = [placeholderImage]) ∧
    (∀ imgs2, createProperty ownerId newId now { b with images := imgs2 } =
      createProperty ownerId newId now b) := by
  refine ⟨rfl, ?_, ?_, ?_, ?_⟩
  · intro img himg hne
    have hb : (img == "") = false := by
      simp [hne]
    simp [createProperty, jsOrElse, himg, hb]
  · intro himg
    simp [createProperty, jsOrElse, himg]
  · intro himg
    simp [createProperty, jsOrElse, himg]
  · intro imgs2
    cases b
    rfl

/-- Witness for C10 at concrete inputs: a truthy image is stored alone, an
absent one yields the placeholder alone, and a caller-sent images array is
ignored. -/
theorem create_images_singleton_witness :
    (createProperty 1 7 0
      ⟨"flat", "2", "Vasai", 100, "available", some "https://x/y.jpg",
        some ["a", "b"], none, none⟩).images = ["https://x/y.jpg"] ∧
    (createProperty 1 8 0
      ⟨"flat", "2", "Vasai", 100, "available", none, none, none,
        none⟩).images = [placeholderImage] := by
  have h1 := create_images_singleton 1 7 0
    ⟨"flat", "2", "Vasai", 100, "available", some "https://x/y.jpg",
      some ["a", "b"], none, none⟩
  have h2 := create_images_singleton 1 8 0
    ⟨"flat", "2", "Vasai", 100, "available", none, none, none, none⟩
  exact ⟨h1.2.1 "https://x/y.jpg" rfl (by decide), h2.2.2.1 rfl⟩

end VasaiProps
